import Mathlib

/-!
Verification of the Authgear→Firebase token-exchange pipeline.

The handler `app.post("/authgear-to-firebase")` of `src/index.js` (primary
variant, lines 67–186) and its near-identical variant in
`src/unnamed/part_001` (lines 87–239) are shallowly embedded as pure
functions.  Every outbound remote call (token introspection, the two user
lookups, `updateUser`, `createUser`, `createCustomToken`) is modelled by an
environment `Env` recording the outcome the remote end would return, and the
handler additionally returns the list of remote calls it actually issued, so
that "no call was made" properties can be stated.

JavaScript truthiness on string-valued fields is modelled explicitly:
`none` stands for `undefined`/`null`, and the empty string is falsy, so
`a || b` becomes `jsOr`.  Response-body fields that no claim refers to
(`details`, `authgearUserId`, timestamps) are elided from the body model.
-/

namespace AuthgearFirebase

/-- JS truthiness of a possibly-absent string (`none` = `undefined`/`null`;
the empty string is falsy). -/
def truthy : Option String → Bool
  | none => false
  | some s => s != ""

/-- JS `a || b` on two possibly-absent string values. -/
def jsOr (a b : Option String) : Option String :=
  if truthy a then a else b

/-- JS `a || b` where `b` is a plain string literal (used for
`userInfo.data.name || ""`). -/
def jsOrStr (a : Option String) (b : String) : String :=
  if truthy a then a.getD b else b

/-- JS template interpolation of a possibly-undefined value, as in
`` `${AUTHGEAR_ENDPOINT}/users/${tokenInfo.sub}` ``: `undefined` prints as
the literal string `"undefined"`. -/
def subStr : Option String → String
  | none => "undefined"
  | some s => s

/-- The `claims` object of an Authgear identity:
`{email, phone_number}`. -/
structure Claims where
  email : Option String
  phone_number : Option String
deriving DecidableEq, Repr

/-- One entry of `userDetails.data.identities`. -/
structure Identity where
  type : String
  claims : Option Claims
deriving DecidableEq, Repr

/-- The body of the `GET /users/{sub}` detail lookup:
`{identities: [...]}` (the array itself may be absent). -/
structure UserDetailsData where
  identities : Option (List Identity)
deriving DecidableEq, Repr

/-- The body of the `GET /oauth2/userinfo` profile lookup:
`{email, name}` as consumed by the handler. -/
structure UserInfoData where
  email : Option String
  name : Option String
deriving DecidableEq, Repr

/-- The body of the `POST /oauth2/token/introspect` response:
`{active, sub}` as consumed by the handler (`sub` may be absent). -/
structure TokenInfo where
  active : Bool
  sub : Option String
deriving DecidableEq, Repr

/-- A thrown JS error as the handler inspects it: `error.code` (possibly
absent), `error.message`, and `error.response?.status` for axios errors. -/
structure JsError where
  code : Option String
  message : String
  responseStatus : Option Nat
deriving DecidableEq, Repr

/-- Outcome of one outbound remote call: the value the remote end returned,
or the error the client library threw. -/
inductive CallResult (α : Type) where
  | ok (val : α)
  | err (e : JsError)
deriving Repr

/-- The outcomes the remote collaborators would produce for each of the six
outbound calls a single exchange request can make.  The handler consults an
entry only if it actually issues the corresponding call. -/
structure Env where
  introspect : CallResult TokenInfo
  userinfo : CallResult UserInfoData
  userDetail : CallResult UserDetailsData
  updateUser : CallResult Unit
  createUser : CallResult Unit
  createCustomToken : CallResult String

/-- Trace entry: one outbound remote call actually issued by the handler,
with the arguments the source passes. -/
inductive RemoteCall where
  | introspect
  | userinfo
  | userDetail (subPath : String)
  | updateUser (uid : String) (email : String) (emailVerified : Bool)
      (displayName : String) (disabled : Option Bool)
  | createUser (uid : String) (email : String) (emailVerified : Bool)
      (displayName : String) (disabled : Option Bool)
  | createCustomToken (uid : String)
deriving DecidableEq, Repr

/-- Whether a trace entry is a provisioning call (`updateUser` or
`createUser`). -/
def isProvisionCall : RemoteCall → Bool
  | .updateUser _ _ _ _ _ => true
  | .createUser _ _ _ _ _ => true
  | _ => false

/-- Whether a trace entry is a credential-minting call
(`createCustomToken`). -/
def isMintCall : RemoteCall → Bool
  | .createCustomToken _ => true
  | _ => false

/-- Whether a trace entry is the `updateUser` call. -/
def isUpdateCall : RemoteCall → Bool
  | .updateUser _ _ _ _ _ => true
  | _ => false

/-- Whether a trace entry is the `createUser` call. -/
def isCreateCall : RemoteCall → Bool
  | .createUser _ _ _ _ _ => true
  | _ => false

/-- The `user` object of a successful response:
`{uid, email, name, identifier}` (diagnostic-only extras elided). -/
structure RespUser where
  uid : String
  email : String
  name : String
  identifier : Option String
deriving DecidableEq, Repr

/-- JSON body of the handler's response: an error body `{error, code?}`
(the `details` field, present only in development mode, is elided) or the
success body `{success:true, firebaseToken, user}`. -/
inductive Body where
  | failure (error : String) (code : Option String)
  | success (firebaseToken : String) (user : RespUser)
deriving DecidableEq, Repr

/-- Whether a body is the success body. -/
def isSuccessBody : Body → Bool
  | .success _ _ => true
  | _ => false

/-- An HTTP response: status code and JSON body. -/
structure HttpResponse where
  status : Nat
  body : Body
deriving DecidableEq, Repr

/-- `userDetails.data.identities?.find(id => id.type === "login_id")`
(src/index.js line 127). -/
def primaryIdentityOf (ud : UserDetailsData) : Option Identity :=
  ud.identities.bind (List.find? (fun id => id.type == "login_id"))

/-- `primaryIdentity?.claims?.email || primaryIdentity?.claims?.phone_number`
(src/index.js line 128). -/
def identifierOf (ud : UserDetailsData) : Option String :=
  jsOr (((primaryIdentityOf ud).bind Identity.claims).bind Claims.email)
    (((primaryIdentityOf ud).bind Identity.claims).bind Claims.phone_number)

/-- `const email = userInfo.data.email || identifier` (src/index.js
line 129): the merge of the profile lookup with the detail lookup. -/
def resolvedEmail (ui : UserInfoData) (ud : UserDetailsData) : Option String :=
  jsOr ui.email (identifierOf ud)

/-- JS `String.prototype.startsWith`, modelled on the character lists (kept
structurally recursive so that concrete instances evaluate). -/
def strStartsWith (s pre : String) : Bool :=
  pre.data.isPrefixOf s.data

/-- `error.code?.startsWith("auth/")` of the outer catch (src/index.js
line 178): absent code is falsy. -/
def codeStartsWithAuth : Option String → Bool
  | none => false
  | some s => strStartsWith s "auth/"

/-- The outer catch of src/index.js (lines 175–185): status 400 for
`auth/`-prefixed error codes, 500 otherwise; the raw message is forwarded
only when a code is present. -/
def outerCatch (e : JsError) : HttpResponse :=
  { status := if codeStartsWithAuth e.code then 400 else 500
    body := Body.failure
      (if truthy e.code then e.message else "Internal server error") none }

/-- The outer catch of src/unnamed/part_001 (lines 227–238): same status
rule, and the body additionally carries `code: error.code || "INTERNAL_ERROR"`. -/
def outerCatchP1 (e : JsError) : HttpResponse :=
  { status := if codeStartsWithAuth e.code then 400 else 500
    body := Body.failure
      (if truthy e.code then e.message else "Internal server error")
      (some (if truthy e.code then e.code.getD "" else "INTERNAL_ERROR")) }

/-- `await admin.auth().createCustomToken(firebaseUid)` and the successful
response (src/index.js lines 160–173); a thrown error reaches the outer
catch. -/
def mintStage (env : Env) (uid email name : String) (identifier : Option String)
    (calls : List RemoteCall) : HttpResponse × List RemoteCall :=
  match env.createCustomToken with
  | .ok tok =>
      ({ status := 200
         body := Body.success tok
           { uid := uid, email := email, name := name, identifier := identifier } },
       calls ++ [RemoteCall.createCustomToken uid])
  | .err e => (outerCatch e, calls ++ [RemoteCall.createCustomToken uid])

/-- The upsert of src/index.js (lines 141–158) followed by minting:
`updateUser` first; on the specific `"auth/user-not-found"` code fall back
to `createUser`; any other error (from either call) is rethrown to the
outer catch. -/
def provisionAndMint (env : Env) (uid email name : String)
    (identifier : Option String) : HttpResponse × List RemoteCall :=
  match env.updateUser with
  | .ok _ =>
      mintStage env uid email name identifier
        [RemoteCall.updateUser uid email true name none]
  | .err e =>
      if e.code == some "auth/user-not-found" then
        match env.createUser with
        | .ok _ =>
            mintStage env uid email name identifier
              [RemoteCall.updateUser uid email true name none,
               RemoteCall.createUser uid email true name none]
        | .err e2 =>
            (outerCatch e2,
             [RemoteCall.updateUser uid email true name none,
              RemoteCall.createUser uid email true name none])
      else
        (outerCatch e, [RemoteCall.updateUser uid email true name none])

/-- The full `/authgear-to-firebase` handler of src/index.js (lines 67–186)
as a function of the remote-call outcomes and the request's
`authgear_token` field; also returns the trace of remote calls issued. -/
def exchangeHandler (env : Env) (authgear_token : Option String) :
    HttpResponse × List RemoteCall :=
  if truthy authgear_token = false then
    ({ status := 400
       body := Body.failure "Missing required field: authgear_token" none }, [])
  else
    match env.introspect with
    | .err _ =>
        ({ status := 502
           body := Body.failure "Failed to verify token with Authgear" none },
         [RemoteCall.introspect])
    | .ok tokenInfo =>
        if tokenInfo.active = false then
          ({ status := 401
             body := Body.failure "Invalid or expired token" none },
           [RemoteCall.introspect])
        else
          match env.userinfo, env.userDetail with
          | .ok userInfo, .ok userDetails =>
              let identifier := identifierOf userDetails
              let email := resolvedEmail userInfo userDetails
              let name := jsOrStr userInfo.name ""
              if truthy email = false then
                ({ status := 400
                   body := Body.failure "No email or phone number found for user" none },
                 [RemoteCall.introspect, RemoteCall.userinfo,
                  RemoteCall.userDetail (subStr tokenInfo.sub)])
              else
                let firebaseUid := "authgear:" ++ subStr tokenInfo.sub
                let r := provisionAndMint env firebaseUid (email.getD "") name identifier
                (r.1,
                 [RemoteCall.introspect, RemoteCall.userinfo,
                  RemoteCall.userDetail (subStr tokenInfo.sub)] ++ r.2)
          | _, _ =>
              ({ status := 502
                 body := Body.failure "Failed to fetch user details from Authgear" none },
               [RemoteCall.introspect, RemoteCall.userinfo,
                RemoteCall.userDetail (subStr tokenInfo.sub)])

/-- Minting and success response of src/unnamed/part_001 (lines 211–225):
as in index.js, but the error body carries a `code` field. -/
def mintStageP1 (env : Env) (uid email name : String) (identifier : Option String)
    (calls : List RemoteCall) : HttpResponse × List RemoteCall :=
  match env.createCustomToken with
  | .ok tok =>
      ({ status := 200
         body := Body.success tok
           { uid := uid, email := email, name := name, identifier := identifier } },
       calls ++ [RemoteCall.createCustomToken uid])
  | .err e => (outerCatchP1 e, calls ++ [RemoteCall.createCustomToken uid])

/-- The upsert of src/unnamed/part_001 (lines 190–209) followed by minting:
identical to index.js except the attributes additionally carry
`disabled: false`. -/
def provisionAndMintP1 (env : Env) (uid email name : String)
    (identifier : Option String) : HttpResponse × List RemoteCall :=
  match env.updateUser with
  | .ok _ =>
      mintStageP1 env uid email name identifier
        [RemoteCall.updateUser uid email true name (some false)]
  | .err e =>
      if e.code == some "auth/user-not-found" then
        match env.createUser with
        | .ok _ =>
            mintStageP1 env uid email name identifier
              [RemoteCall.updateUser uid email true name (some false),
               RemoteCall.createUser uid email true name (some false)]
        | .err e2 =>
            (outerCatchP1 e2,
             [RemoteCall.updateUser uid email true name (some false),
              RemoteCall.createUser uid email true name (some false)])
      else
        (outerCatchP1 e, [RemoteCall.updateUser uid email true name (some false)])

/-- The full `/authgear-to-firebase` handler of src/unnamed/part_001
(lines 87–239): same pipeline as index.js, with `code` fields on error
bodies and a dedicated message when introspection fails with HTTP 404. -/
def exchangeHandlerP1 (env : Env) (authgear_token : Option String) :
    HttpResponse × List RemoteCall :=
  if truthy authgear_token = false then
    ({ status := 400
       body := Body.failure "Missing required field: authgear_token"
         (some "MISSING_TOKEN") }, [])
  else
    match env.introspect with
    | .err e =>
        if e.responseStatus == some 404 then
          ({ status := 502
             body := Body.failure "Authgear endpoint not found - check configuration"
               (some "AUTHGEAR_ENDPOINT_NOT_FOUND") },
           [RemoteCall.introspect])
        else
          ({ status := 502
             body := Body.failure "Failed to verify token with Authgear"
               (some "AUTHGEAR_ERROR") },
           [RemoteCall.introspect])
    | .ok tokenInfo =>
        if tokenInfo.active = false then
          ({ status := 401
             body := Body.failure "Invalid or expired token" (some "INVALID_TOKEN") },
           [RemoteCall.introspect])
        else
          match env.userinfo, env.userDetail with
          | .ok userInfo, .ok userDetails =>
              let identifier := identifierOf userDetails
              let email := resolvedEmail userInfo userDetails
              let name := jsOrStr userInfo.name ""
              if truthy email = false then
                ({ status := 400
                   body := Body.failure "No email or phone number found for user"
                     (some "MISSING_USER_IDENTIFIER") },
                 [RemoteCall.introspect, RemoteCall.userinfo,
                  RemoteCall.userDetail (subStr tokenInfo.sub)])
              else
                let firebaseUid := "authgear:" ++ subStr tokenInfo.sub
                let r := provisionAndMintP1 env firebaseUid (email.getD "") name identifier
                (r.1,
                 [RemoteCall.introspect, RemoteCall.userinfo,
                  RemoteCall.userDetail (subStr tokenInfo.sub)] ++ r.2)
          | _, _ =>
              ({ status := 502
                 body := Body.failure "Failed to fetch user details from Authgear"
                   (some "AUTHGEAR_USER_DETAILS_ERROR") },
               [RemoteCall.introspect, RemoteCall.userinfo,
                RemoteCall.userDetail (subStr tokenInfo.sub)])

/-! ### Helper lemmas -/

/-- A successful body out of the provision-and-mint stage carries exactly the
uid, email, name and identifier it was entered with. -/
lemma provisionAndMint_success (env : Env) (uid email name : String)
    (idf : Option String) (f : String) (u : RespUser)
    (h : (provisionAndMint env uid email name idf).1.body = Body.success f u) :
    u = ⟨uid, email, name, idf⟩ := by
  cases h1 : env.updateUser with
  | ok v =>
      cases h3 : env.createCustomToken with
      | ok tok =>
          simp only [provisionAndMint, mintStage, h1, h3, Body.success.injEq] at h
          exact h.2.symm
      | err e => simp [provisionAndMint, mintStage, outerCatch, h1, h3] at h
  | err e =>
      by_cases hc : e.code = some "auth/user-not-found"
      · cases h2 : env.createUser with
        | ok v =>
            cases h3 : env.createCustomToken with
            | ok tok =>
                simp only [provisionAndMint, mintStage, h1, h2, h3, hc,
                  beq_self_eq_true, if_true, Body.success.injEq] at h
                exact h.2.symm
            | err e2 =>
                simp [provisionAndMint, mintStage, outerCatch, h1, h2, h3, hc] at h
        | err e2 => simp [provisionAndMint, outerCatch, h1, h2, hc] at h
      · simp [provisionAndMint, outerCatch, h1, beq_iff_eq, hc] at h

/-- A successful exchange implies the introspection and both user lookups
succeeded, and pins down every field of the response's user object. -/
lemma exchange_success_shape (env : Env) (tok : Option String) (f : String)
    (u : RespUser) (h : (exchangeHandler env tok).1.body = Body.success f u) :
    ∃ ti ui ud, env.introspect = CallResult.ok ti ∧
      env.userinfo = CallResult.ok ui ∧ env.userDetail = CallResult.ok ud ∧
      u = ⟨"authgear:" ++ subStr ti.sub, (resolvedEmail ui ud).getD "",
        jsOrStr ui.name "", identifierOf ud⟩ := by
  cases ht : truthy tok with
  | false => simp [exchangeHandler, ht] at h
  | true =>
    cases hi : env.introspect with
    | err e => simp [exchangeHandler, ht, hi] at h
    | ok ti =>
      cases ha : ti.active with
      | false => simp [exchangeHandler, ht, hi, ha] at h
      | true =>
        cases hui : env.userinfo with
        | err e => simp [exchangeHandler, ht, hi, ha, hui] at h
        | ok ui =>
          cases hud : env.userDetail with
          | err e => simp [exchangeHandler, ht, hi, ha, hui, hud] at h
          | ok ud =>
            cases he : truthy (resolvedEmail ui ud) with
            | false => simp [exchangeHandler, ht, hi, ha, hui, hud, he] at h
            | true =>
              simp only [exchangeHandler, ht, hi, ha, hui, hud, he] at h
              simp only [Bool.true_eq_false, if_false] at h
              exact ⟨ti, ui, ud, rfl, rfl, rfl,
                provisionAndMint_success _ _ _ _ _ _ _ h⟩

/-- Once the pipeline reaches provisioning, the whole handler result is the
three lookup calls followed by the provision-and-mint stage. -/
lemma exchange_reach (env : Env) (tok : Option String) (ti : TokenInfo)
    (ui : UserInfoData) (ud : UserDetailsData)
    (ht : truthy tok = true) (hi : env.introspect = CallResult.ok ti)
    (ha : ti.active = true) (hui : env.userinfo = CallResult.ok ui)
    (hud : env.userDetail = CallResult.ok ud)
    (he : truthy (resolvedEmail ui ud) = true) :
    exchangeHandler env tok =
      ((provisionAndMint env ("authgear:" ++ subStr ti.sub)
          ((resolvedEmail ui ud).getD "") (jsOrStr ui.name "") (identifierOf ud)).1,
       [RemoteCall.introspect, RemoteCall.userinfo,
        RemoteCall.userDetail (subStr ti.sub)] ++
         (provisionAndMint env ("authgear:" ++ subStr ti.sub)
           ((resolvedEmail ui ud).getD "") (jsOrStr ui.name "") (identifierOf ud)).2) := by
  simp [exchangeHandler, ht, hi, ha, hui, hud, he]

/-- The provision-and-mint stage always issues the `updateUser` call first. -/
lemma provisionAndMint_trace_head (env : Env) (uid email name : String)
    (idf : Option String) :
    ∃ rest, (provisionAndMint env uid email name idf).2 =
      RemoteCall.updateUser uid email true name none :: rest := by
  cases h1 : env.updateUser with
  | ok v =>
      cases h3 : env.createCustomToken with
      | ok tok =>
          exact ⟨[RemoteCall.createCustomToken uid],
            by simp [provisionAndMint, mintStage, h1, h3]⟩
      | err e =>
          exact ⟨[RemoteCall.createCustomToken uid],
            by simp [provisionAndMint, mintStage, h1, h3]⟩
  | err e =>
      by_cases hc : e.code = some "auth/user-not-found"
      · cases h2 : env.createUser with
        | ok v =>
            cases h3 : env.createCustomToken with
            | ok tok =>
                exact ⟨[RemoteCall.createUser uid email true name none,
                    RemoteCall.createCustomToken uid],
                  by simp [provisionAndMint, mintStage, h1, h2, h3, hc]⟩
            | err e2 =>
                exact ⟨[RemoteCall.createUser uid email true name none,
                    RemoteCall.createCustomToken uid],
                  by simp [provisionAndMint, mintStage, h1, h2, h3, hc]⟩
        | err e2 =>
            exact ⟨[RemoteCall.createUser uid email true name none],
              by simp [provisionAndMint, h1, h2, hc]⟩
      · exact ⟨[], by simp [provisionAndMint, h1, beq_iff_eq, hc]⟩

/-- The provision-and-mint stage issues a `createUser` call exactly when the
`updateUser` call failed with the `"auth/user-not-found"` code. -/
lemma provisionAndMint_create_iff (env : Env) (uid email name : String)
    (idf : Option String) :
    (provisionAndMint env uid email name idf).2.any isCreateCall = true ↔
      ∃ e, env.updateUser = CallResult.err e ∧ e.code = some "auth/user-not-found" := by
  cases h1 : env.updateUser with
  | ok v =>
      cases h3 : env.createCustomToken with
      | ok tok => simp [provisionAndMint, mintStage, h1, h3, isCreateCall, isMintCall]
      | err e => simp [provisionAndMint, mintStage, h1, h3, isCreateCall]
  | err e =>
      by_cases hc : e.code = some "auth/user-not-found"
      · cases h2 : env.createUser with
        | ok v =>
            cases h3 : env.createCustomToken with
            | ok tok =>
                simp only [provisionAndMint, mintStage, h1, h2, h3, hc,
                  beq_self_eq_true, if_true]
                simp [isCreateCall, hc]
            | err e2 =>
                simp only [provisionAndMint, mintStage, h1, h2, h3, hc,
                  beq_self_eq_true, if_true]
                simp [isCreateCall, hc]
        | err e2 =>
            simp only [provisionAndMint, h1, h2, hc, beq_self_eq_true, if_true]
            simp [isCreateCall, hc]
      · simp [provisionAndMint, h1, beq_iff_eq, hc, isCreateCall]

/-- When `updateUser` fails with any code other than `"auth/user-not-found"`,
the stage rethrows to the outer catch without calling `createUser` or
minting. -/
lemma provisionAndMint_update_err (env : Env) (uid email name : String)
    (idf : Option String) (e : JsError) (h1 : env.updateUser = CallResult.err e)
    (hc : e.code ≠ some "auth/user-not-found") :
    provisionAndMint env uid email name idf =
      (outerCatch e, [RemoteCall.updateUser uid email true name none]) := by
  simp [provisionAndMint, h1, beq_iff_eq, hc]

/-- Base environment in which every remote call succeeds; used to
instantiate witnesses. -/
def envOkBase : Env :=
  { introspect := CallResult.ok ⟨true, some "u1"⟩
    userinfo := CallResult.ok ⟨some "a@x.com", some "Jo"⟩
    userDetail := CallResult.ok
      ⟨some [⟨"login_id", some ⟨some "b@x.com", some "+15551234"⟩⟩]⟩
    updateUser := CallResult.ok ()
    createUser := CallResult.ok ()
    createCustomToken := CallResult.ok "ftok" }

/-- Environment whose introspection carries `active = true` but no
subject. -/
def envNoSub : Env := { envOkBase with introspect := CallResult.ok ⟨true, none⟩ }

/-- Missing-subject environment whose user-detail lookup fails. -/
def envNoSubDown : Env :=
  { envNoSub with userDetail := CallResult.err ⟨none, "down", none⟩ }

/-- Environment where the upsert hits the not-found fallback and the
create is rejected with the uniqueness-violation code. -/
def envConflict : Env :=
  { envOkBase with
      updateUser := CallResult.err ⟨some "auth/user-not-found", "nf", none⟩
      createUser := CallResult.err
        ⟨some "auth/uid-already-exists", "uid exists", none⟩ }

/-- Environment where the update fails with an `auth/`-prefixed error other
than not-found. -/
def envAuthErr : Env :=
  { envOkBase with
      updateUser := CallResult.err ⟨some "auth/internal-error", "ie", none⟩ }

/-- Environment with no profile email and an identity list with no
entries. -/
def envNoIdentity : Env :=
  { envOkBase with
      userinfo := CallResult.ok ⟨none, some "Jo"⟩
      userDetail := CallResult.ok ⟨some []⟩ }

/-- Environment with no profile email and a login identity carrying only a
phone number. -/
def envPhoneOnly : Env :=
  { envOkBase with
      userinfo := CallResult.ok ⟨none, some "Jo"⟩
      userDetail := CallResult.ok
        ⟨some [⟨"login_id", some ⟨none, some "+15551234"⟩⟩]⟩ }

/-! ### Claims -/

/-- Claim C1: the merge rule; when the profile lookup supplies a non-empty
email it wins; when the profile email is absent the resolved email is the
first `login_id` identity's `email` claim, falling back to its
`phone_number` claim; the resolved value is what a successful exchange
returns; and the two concrete examples of the spec hold. -/
theorem claim_C1 :
    (∀ (ui : UserInfoData) (ud : UserDetailsData) (s : String),
        ui.email = some s → s ≠ "" → resolvedEmail ui ud = some s) ∧
    (∀ (ui : UserInfoData) (ud : UserDetailsData), ui.email = none →
        resolvedEmail ui ud =
          jsOr (((ud.identities.bind (List.find? fun i => i.type == "login_id")).bind
              Identity.claims).bind Claims.email)
            (((ud.identities.bind (List.find? fun i => i.type == "login_id")).bind
              Identity.claims).bind Claims.phone_number)) ∧
    (∀ (env : Env) (tok : Option String) (ui : UserInfoData) (ud : UserDetailsData)
        (f : String) (u : RespUser),
        env.userinfo = CallResult.ok ui → env.userDetail = CallResult.ok ud →
        (exchangeHandler env tok).1.body = Body.success f u →
        u.email = (resolvedEmail ui ud).getD "") ∧
    resolvedEmail ⟨some "a@x.com", none⟩
      ⟨some [⟨"login_id", some ⟨some "b@x.com", none⟩⟩]⟩ = some "a@x.com" ∧
    resolvedEmail ⟨none, none⟩
      ⟨some [⟨"login_id", some ⟨some "b@x.com", none⟩⟩]⟩ = some "b@x.com" := by
  refine ⟨?_, ?_, ?_, by decide, by decide⟩
  · intro ui ud s he hs
    simp [resolvedEmail, jsOr, truthy, he, hs]
  · intro ui ud he
    simp [resolvedEmail, identifierOf, primaryIdentityOf, jsOr, truthy, he]
  · intro env tok ui ud f u hui hud h
    obtain ⟨ti, ui', ud', _, hui', hud', hu⟩ := exchange_success_shape env tok f u h
    rw [hui] at hui'
    rw [hud] at hud'
    cases hui'
    cases hud'
    rw [hu]

/-- Witness for claim C1 at a concrete profile with a non-empty email. -/
theorem claim_C1_witness :
    (⟨some "a@x.com", none⟩ : UserInfoData).email = some "a@x.com" ∧
    "a@x.com" ≠ "" ∧
    resolvedEmail ⟨some "a@x.com", none⟩ ⟨none⟩ = some "a@x.com" :=
  ⟨rfl, by decide, claim_C1.1 ⟨some "a@x.com", none⟩ ⟨none⟩ "a@x.com" rfl (by decide)⟩

/-- Claim C2: an introspection response with `active = false` yields status
401 with the invalid-token error, and no provisioning or minting call is
issued. -/
theorem claim_C2 (env : Env) (tok : Option String) (ti : TokenInfo)
    (ht : truthy tok = true) (hi : env.introspect = CallResult.ok ti)
    (ha : ti.active = false) :
    (exchangeHandler env tok).1.status = 401 ∧
    (exchangeHandler env tok).1.body = Body.failure "Invalid or expired token" none ∧
    (exchangeHandler env tok).2.any isProvisionCall = false ∧
    (exchangeHandler env tok).2.any isMintCall = false := by
  simp [exchangeHandler, ht, hi, ha, isProvisionCall, isMintCall]

/-- Witness for claim C2: a concrete inactive-token environment. -/
theorem claim_C2_witness :
    truthy (some "t") = true ∧
    ({ envOkBase with introspect := CallResult.ok ⟨false, some "u1"⟩ } : Env).introspect
      = CallResult.ok ⟨false, some "u1"⟩ ∧
    (exchangeHandler { envOkBase with introspect := CallResult.ok ⟨false, some "u1"⟩ }
      (some "t")).1.status = 401 :=
  ⟨by decide, rfl,
    (claim_C2 { envOkBase with introspect := CallResult.ok ⟨false, some "u1"⟩ }
      (some "t") ⟨false, some "u1"⟩ (by decide) rfl rfl).1⟩

/-- Claim C3: a missing or empty `authgear_token` yields status 400 with the
missing-token error (code `MISSING_TOKEN` in the part_001 variant) and an
empty remote-call trace — no outbound call of any kind is made. -/
theorem claim_C3 (env : Env) (tok : Option String) (ht : truthy tok = false) :
    exchangeHandler env tok =
      ({ status := 400
         body := Body.failure "Missing required field: authgear_token" none }, []) ∧
    exchangeHandlerP1 env tok =
      ({ status := 400
         body := Body.failure "Missing required field: authgear_token"
           (some "MISSING_TOKEN") }, []) := by
  constructor
  · simp [exchangeHandler, ht]
  · simp [exchangeHandlerP1, ht]

/-- Witness for claim C3 at an absent token field. -/
theorem claim_C3_witness :
    truthy none = false ∧ (exchangeHandler envOkBase none).2 = [] :=
  ⟨rfl, congrArg Prod.snd (claim_C3 envOkBase none rfl).1⟩

/-- Claim C4: the internal subject id is the pure deterministic function
`"authgear:" ++ external subject`: every successful exchange's uid is
exactly that string, and any two exchanges observing the same external
subject compute the same internal id. -/
theorem claim_C4 :
    (∀ (env : Env) (tok : Option String) (ti : TokenInfo) (s f : String)
        (u : RespUser),
        env.introspect = CallResult.ok ti → ti.sub = some s →
        (exchangeHandler env tok).1.body = Body.success f u →
        u.uid = "authgear:" ++ s) ∧
    (∀ (env1 env2 : Env) (tok1 tok2 : Option String) (ti1 ti2 : TokenInfo)
        (s f1 f2 : String) (u1 u2 : RespUser),
        env1.introspect = CallResult.ok ti1 → ti1.sub = some s →
        env2.introspect = CallResult.ok ti2 → ti2.sub = some s →
        (exchangeHandler env1 tok1).1.body = Body.success f1 u1 →
        (exchangeHandler env2 tok2).1.body = Body.success f2 u2 →
        u1.uid = u2.uid) := by
  have base : ∀ (env : Env) (tok : Option String) (ti : TokenInfo) (s f : String)
      (u : RespUser),
      env.introspect = CallResult.ok ti → ti.sub = some s →
      (exchangeHandler env tok).1.body = Body.success f u →
      u.uid = "authgear:" ++ s := by
    intro env tok ti s f u hi hs h
    obtain ⟨ti', ui, ud, hi', _, _, hu⟩ := exchange_success_shape env tok f u h
    rw [hi] at hi'
    injection hi' with h1
    subst h1
    rw [hu, hs]
    rfl
  refine ⟨base, ?_⟩
  intro env1 env2 tok1 tok2 ti1 ti2 s f1 f2 u1 u2 h1 h2 h3 h4 h5 h6
  rw [base env1 tok1 ti1 s f1 u1 h1 h2 h5, base env2 tok2 ti2 s f2 u2 h3 h4 h6]

/-- Witness for claim C4: a fully successful exchange for subject `u1`. -/
theorem claim_C4_witness :
    envOkBase.introspect = CallResult.ok ⟨true, some "u1"⟩ ∧
    (⟨true, some "u1"⟩ : TokenInfo).sub = some "u1" ∧
    (exchangeHandler envOkBase (some "t")).1.body =
      Body.success "ftok" ⟨"authgear:u1", "a@x.com", "Jo", some "b@x.com"⟩ ∧
    (⟨"authgear:u1", "a@x.com", "Jo", some "b@x.com"⟩ : RespUser).uid =
      "authgear:" ++ "u1" :=
  ⟨rfl, rfl, by decide,
    claim_C4.1 envOkBase (some "t") ⟨true, some "u1"⟩ "u1" "ftok"
      ⟨"authgear:u1", "a@x.com", "Jo", some "b@x.com"⟩ rfl rfl (by decide)⟩

/-- Claim C5: once the pipeline reaches provisioning, the `updateUser` call
is always attempted first; `createUser` is called exactly when `updateUser`
failed with the `"auth/user-not-found"` code; and on any other update error
no create happens, no minting happens, and the error propagates to the
outer catch, aborting the exchange. -/
theorem claim_C5 (env : Env) (tok : Option String) (ti : TokenInfo)
    (ui : UserInfoData) (ud : UserDetailsData)
    (ht : truthy tok = true) (hi : env.introspect = CallResult.ok ti)
    (ha : ti.active = true) (hui : env.userinfo = CallResult.ok ui)
    (hud : env.userDetail = CallResult.ok ud)
    (he : truthy (resolvedEmail ui ud) = true) :
    (∃ rest, (exchangeHandler env tok).2 =
      [RemoteCall.introspect, RemoteCall.userinfo,
       RemoteCall.userDetail (subStr ti.sub)] ++
        RemoteCall.updateUser ("authgear:" ++ subStr ti.sub)
          ((resolvedEmail ui ud).getD "") true (jsOrStr ui.name "") none :: rest) ∧
    ((exchangeHandler env tok).2.any isCreateCall = true ↔
      ∃ e, env.updateUser = CallResult.err e ∧
        e.code = some "auth/user-not-found") ∧
    (∀ e, env.updateUser = CallResult.err e →
      e.code ≠ some "auth/user-not-found" →
      (exchangeHandler env tok).1 = outerCatch e ∧
      (exchangeHandler env tok).2.any isCreateCall = false ∧
      (exchangeHandler env tok).2.any isMintCall = false ∧
      isSuccessBody (exchangeHandler env tok).1.body = false) := by
  have hr := exchange_reach env tok ti ui ud ht hi ha hui hud he
  refine ⟨?_, ?_, ?_⟩
  · obtain ⟨rest, hrest⟩ := provisionAndMint_trace_head env
      ("authgear:" ++ subStr ti.sub) ((resolvedEmail ui ud).getD "")
      (jsOrStr ui.name "") (identifierOf ud)
    exact ⟨rest, by rw [hr]; simp [hrest]⟩
  · rw [hr]
    have hiff := provisionAndMint_create_iff env ("authgear:" ++ subStr ti.sub)
      ((resolvedEmail ui ud).getD "") (jsOrStr ui.name "") (identifierOf ud)
    simpa [List.any_append, isCreateCall] using hiff
  · intro e h1 hc
    rw [hr, provisionAndMint_update_err env ("authgear:" ++ subStr ti.sub)
      ((resolvedEmail ui ud).getD "") (jsOrStr ui.name "") (identifierOf ud) e h1 hc]
    simp [isCreateCall, isMintCall, isSuccessBody, outerCatch]

/-- Witness for claim C5: an update failure with a non-not-found code aborts
the exchange with the outer-catch response. -/
theorem claim_C5_witness :
    truthy (some "t") = true ∧
    (exchangeHandler
        { envOkBase with updateUser := CallResult.err ⟨some "boom", "m", none⟩ }
        (some "t")).1 = outerCatch ⟨some "boom", "m", none⟩ :=
  ⟨by decide,
    ((claim_C5 { envOkBase with updateUser := CallResult.err ⟨some "boom", "m", none⟩ }
        (some "t") ⟨true, some "u1"⟩ ⟨some "a@x.com", some "Jo"⟩
        ⟨some [⟨"login_id", some ⟨some "b@x.com", some "+15551234"⟩⟩]⟩
        (by decide) rfl rfl rfl rfl (by decide)).2.2
      ⟨some "boom", "m", none⟩ rfl (by decide)).1⟩

/-- Claim C6 counterexample: an introspection response with `active = true`
but no subject does NOT make the exchange fail with 502: with both user
lookups succeeding, the pipeline provisions and mints normally (status 200),
contradicting the claim that no provisioning or minting occurs. -/
theorem claim_C6_counterexample :
    (exchangeHandler envNoSub (some "t")).1.status = 200 ∧
    (exchangeHandler envNoSub (some "t")).2.any isProvisionCall = true ∧
    (exchangeHandler envNoSub (some "t")).2.any isMintCall = true := by decide

/-- Claim C6 amended: the handler performs no subject-presence check; with
`active = true` and a missing subject the detail lookup is issued for the
literal path `"undefined"`, and only if a user lookup fails does the
exchange return 502 with no provisioning or minting; if both lookups
succeed, the exchange proceeds under internal id `"authgear:undefined"`. -/
theorem claim_C6_amended (env : Env) (tok : Option String) (ti : TokenInfo)
    (ht : truthy tok = true) (hi : env.introspect = CallResult.ok ti)
    (ha : ti.active = true) (hs : ti.sub = none) :
    (∀ e, env.userDetail = CallResult.err e →
      (exchangeHandler env tok).1.status = 502 ∧
      (exchangeHandler env tok).2.any isProvisionCall = false ∧
      (exchangeHandler env tok).2.any isMintCall = false) ∧
    (∀ f u, (exchangeHandler env tok).1.body = Body.success f u →
      u.uid = "authgear:undefined") := by
  constructor
  · intro e hud
    cases hui : env.userinfo with
    | ok ui =>
        simp [exchangeHandler, ht, hi, ha, hui, hud, isProvisionCall, isMintCall]
    | err e2 =>
        simp [exchangeHandler, ht, hi, ha, hui, hud, isProvisionCall, isMintCall]
  · intro f u h
    obtain ⟨ti', ui, ud, hi', _, _, hu⟩ := exchange_success_shape env tok f u h
    rw [hi] at hi'
    injection hi' with h1
    subst h1
    rw [hu, hs]
    rfl

/-- Witness for the amended claim C6: a concrete missing-subject environment
whose detail lookup fails yields 502. -/
theorem claim_C6_witness :
    truthy (some "t") = true ∧
    (exchangeHandler envNoSubDown (some "t")).1.status = 502 :=
  ⟨by decide,
    ((claim_C6_amended envNoSubDown (some "t") ⟨true, none⟩
        (by decide) rfl rfl rfl).1 ⟨none, "down", none⟩ rfl).1⟩

/-- Claim C7 counterexample: when the create-by-id fallback fails with the
uniqueness-violation code `"auth/uid-already-exists"`, the exchange does NOT
proceed to mint and does NOT return success: the rethrown error hits the
outer catch and yields status 400. -/
theorem claim_C7_counterexample :
    (exchangeHandler envConflict (some "t")).1.status = 400 ∧
    isSuccessBody (exchangeHandler envConflict (some "t")).1.body = false ∧
    (exchangeHandler envConflict (some "t")).2.any isMintCall = false := by
  decide

/-- Claim C7 amended: when the create-by-id fallback fails with the
uniqueness-violation code, the error propagates to the outer catch: the
exchange returns that error response — status 400, since the code is
`auth/`-prefixed — and never reaches the minting stage; the conflict is not
treated as success. -/
theorem claim_C7_amended (env : Env) (tok : Option String) (ti : TokenInfo)
    (ui : UserInfoData) (ud : UserDetailsData)
    (ht : truthy tok = true) (hi : env.introspect = CallResult.ok ti)
    (ha : ti.active = true) (hui : env.userinfo = CallResult.ok ui)
    (hud : env.userDetail = CallResult.ok ud)
    (he : truthy (resolvedEmail ui ud) = true)
    (e e2 : JsError)
    (h1 : env.updateUser = CallResult.err e)
    (hc : e.code = some "auth/user-not-found")
    (h2 : env.createUser = CallResult.err e2)
    (hc2 : e2.code = some "auth/uid-already-exists") :
    (exchangeHandler env tok).1 = outerCatch e2 ∧
    (exchangeHandler env tok).1.status = 400 ∧
    isSuccessBody (exchangeHandler env tok).1.body = false ∧
    (exchangeHandler env tok).2.any isMintCall = false := by
  have hr := exchange_reach env tok ti ui ud ht hi ha hui hud he
  have hpm : provisionAndMint env ("authgear:" ++ subStr ti.sub)
      ((resolvedEmail ui ud).getD "") (jsOrStr ui.name "") (identifierOf ud) =
      (outerCatch e2,
       [RemoteCall.updateUser ("authgear:" ++ subStr ti.sub)
          ((resolvedEmail ui ud).getD "") true (jsOrStr ui.name "") none,
        RemoteCall.createUser ("authgear:" ++ subStr ti.sub)
          ((resolvedEmail ui ud).getD "") true (jsOrStr ui.name "") none]) := by
    simp [provisionAndMint, h1, h2, hc]
  refine ⟨?_, ?_, ?_, ?_⟩
  · rw [hr, hpm]
  · rw [hr, hpm]
    simp only [outerCatch, hc2]
    decide
  · rw [hr, hpm]
    simp [outerCatch, isSuccessBody]
  · rw [hr, hpm]
    simp [isMintCall]

/-- Witness for the amended claim C7 at a concrete conflicting create. -/
theorem claim_C7_witness :
    truthy (some "t") = true ∧
    (exchangeHandler envConflict (some "t")).1.status = 400 :=
  ⟨by decide,
    (claim_C7_amended envConflict
        (some "t") ⟨true, some "u1"⟩ ⟨some "a@x.com", some "Jo"⟩
        ⟨some [⟨"login_id", some ⟨some "b@x.com", some "+15551234"⟩⟩]⟩
        (by decide) rfl rfl rfl rfl (by decide)
        ⟨some "auth/user-not-found", "nf", none⟩
        ⟨some "auth/uid-already-exists", "uid exists", none⟩
        rfl rfl rfl rfl).2.1⟩

/-- Claim C8 counterexample: a provisioning error other than not-found does
NOT always yield status 500: the Firebase error code `"auth/internal-error"`
is `auth/`-prefixed, so the outer catch maps it to 400. -/
theorem claim_C8_counterexample :
    (exchangeHandler envAuthErr (some "t")).1.status = 400 ∧
    (exchangeHandler envAuthErr (some "t")).1.status ≠ 500 := by decide

/-- Claim C8 amended: for a provisioning error other than not-found, and for
a minting error, the status is 500 exactly when the error's code is absent
or does not start with `"auth/"`; `auth/`-prefixed errors yield 400. -/
theorem claim_C8_amended (env : Env) (tok : Option String) (ti : TokenInfo)
    (ui : UserInfoData) (ud : UserDetailsData)
    (ht : truthy tok = true) (hi : env.introspect = CallResult.ok ti)
    (ha : ti.active = true) (hui : env.userinfo = CallResult.ok ui)
    (hud : env.userDetail = CallResult.ok ud)
    (he : truthy (resolvedEmail ui ud) = true) :
    (∀ e, env.updateUser = CallResult.err e →
      e.code ≠ some "auth/user-not-found" →
      (exchangeHandler env tok).1.status =
        if codeStartsWithAuth e.code then 400 else 500) ∧
    (∀ v e, env.updateUser = CallResult.ok v →
      env.createCustomToken = CallResult.err e →
      (exchangeHandler env tok).1.status =
        if codeStartsWithAuth e.code then 400 else 500) ∧
    (∀ e v e2, env.updateUser = CallResult.err e →
      e.code = some "auth/user-not-found" →
      env.createUser = CallResult.ok v →
      env.createCustomToken = CallResult.err e2 →
      (exchangeHandler env tok).1.status =
        if codeStartsWithAuth e2.code then 400 else 500) := by
  have hr := exchange_reach env tok ti ui ud ht hi ha hui hud he
  refine ⟨?_, ?_, ?_⟩
  · intro e h1 hc
    rw [hr, provisionAndMint_update_err env ("authgear:" ++ subStr ti.sub)
      ((resolvedEmail ui ud).getD "") (jsOrStr ui.name "") (identifierOf ud) e h1 hc]
    simp [outerCatch]
  · intro v e h1 h3
    rw [hr]
    simp [provisionAndMint, mintStage, h1, h3, outerCatch]
  · intro e v e2 h1 hc h2 h3
    rw [hr]
    simp [provisionAndMint, mintStage, h1, hc, h2, h3, outerCatch]

/-- Witness for the amended claim C8: an `auth/`-prefixed provisioning error
yields the branch value of the status rule. -/
theorem claim_C8_witness :
    truthy (some "t") = true ∧
    (exchangeHandler envAuthErr (some "t")).1.status =
      if codeStartsWithAuth (some "auth/internal-error") then 400 else 500 :=
  ⟨by decide,
    (claim_C8_amended envAuthErr
        (some "t") ⟨true, some "u1"⟩ ⟨some "a@x.com", some "Jo"⟩
        ⟨some [⟨"login_id", some ⟨some "b@x.com", some "+15551234"⟩⟩]⟩
        (by decide) rfl rfl rfl rfl (by decide)).1
      ⟨some "auth/internal-error", "ie", none⟩ rfl (by decide)⟩

/-- Claim C9: when the profile email is not usable and the detail lookup's
login identity yields neither an email nor a phone claim, the exchange
returns 400 with the incomplete-identity error and issues no provisioning
(and no minting) call. -/
theorem claim_C9 (env : Env) (tok : Option String) (ti : TokenInfo)
    (ui : UserInfoData) (ud : UserDetailsData)
    (ht : truthy tok = true) (hi : env.introspect = CallResult.ok ti)
    (ha : ti.active = true) (hui : env.userinfo = CallResult.ok ui)
    (hud : env.userDetail = CallResult.ok ud)
    (hpe : truthy ui.email = false)
    (hid : truthy (identifierOf ud) = false) :
    (exchangeHandler env tok).1.status = 400 ∧
    (exchangeHandler env tok).1.body =
      Body.failure "No email or phone number found for user" none ∧
    (exchangeHandler env tok).2.any isProvisionCall = false ∧
    (exchangeHandler env tok).2.any isMintCall = false := by
  have he : truthy (resolvedEmail ui ud) = false := by
    simp [resolvedEmail, jsOr, hpe, hid]
  simp [exchangeHandler, ht, hi, ha, hui, hud, he, isProvisionCall, isMintCall]

/-- Witness for claim C9: a profile with no email and a detail lookup with
no identities. -/
theorem claim_C9_witness :
    truthy (some "t") = true ∧
    (exchangeHandler envNoIdentity (some "t")).1.status = 400 :=
  ⟨by decide,
    (claim_C9 envNoIdentity
        (some "t") ⟨true, some "u1"⟩ ⟨none, some "Jo"⟩ ⟨some []⟩
        (by decide) rfl rfl rfl rfl rfl (by decide)).1⟩

/-- Claim C10: when the profile email is absent and the login identity
carries only a `phone_number` claim, that phone number is the value passed
as the `email` attribute of the provisioning call — with `emailVerified`
set to true — and is the `email` field of a successful response. -/
theorem claim_C10 (env : Env) (tok : Option String) (ti : TokenInfo)
    (ui : UserInfoData) (ud : UserDetailsData) (p : String)
    (ht : truthy tok = true) (hi : env.introspect = CallResult.ok ti)
    (ha : ti.active = true) (hui : env.userinfo = CallResult.ok ui)
    (hud : env.userDetail = CallResult.ok ud)
    (hpe : truthy ui.email = false)
    (hce : truthy (((primaryIdentityOf ud).bind Identity.claims).bind
      Claims.email) = false)
    (hcp : ((primaryIdentityOf ud).bind Identity.claims).bind
      Claims.phone_number = some p)
    (hp : p ≠ "") :
    (exchangeHandler env tok).2.any
      (fun c => c == RemoteCall.updateUser ("authgear:" ++ subStr ti.sub) p true
        (jsOrStr ui.name "") none) = true ∧
    (∀ f u, (exchangeHandler env tok).1.body = Body.success f u →
      u.email = p) := by
  have hid : identifierOf ud = some p := by
    simp [identifierOf, jsOr, hce, hcp]
  have hre : resolvedEmail ui ud = some p := by
    simp [resolvedEmail, jsOr, hpe, hid]
  have he : truthy (resolvedEmail ui ud) = true := by
    simp [hre, truthy, hp]
  have hgd : (resolvedEmail ui ud).getD "" = p := by rw [hre]; rfl
  have hr := exchange_reach env tok ti ui ud ht hi ha hui hud he
  rw [hgd] at hr
  constructor
  · obtain ⟨rest, hrest⟩ := provisionAndMint_trace_head env
      ("authgear:" ++ subStr ti.sub) p (jsOrStr ui.name "") (identifierOf ud)
    rw [hr]
    simp [List.any_append, hrest, List.mem_cons]
  · intro f u h
    obtain ⟨ti', ui', ud', hi', hui', hud', hu⟩ :=
      exchange_success_shape env tok f u h
    rw [hui] at hui'
    rw [hud] at hud'
    injection hui' with h1
    injection hud' with h2
    subst h1
    subst h2
    rw [hu]
    simp [hre]

/-- Witness for claim C10: a phone-only login identity ends up as the
provisioned email attribute. -/
theorem claim_C10_witness :
    truthy (some "t") = true ∧
    (exchangeHandler envPhoneOnly (some "t")).2.any
      (fun c => c == RemoteCall.updateUser ("authgear:" ++ subStr (some "u1"))
        "+15551234" true (jsOrStr (some "Jo") "") none) = true :=
  ⟨by decide,
    (claim_C10 envPhoneOnly
        (some "t") ⟨true, some "u1"⟩ ⟨none, some "Jo"⟩
        ⟨some [⟨"login_id", some ⟨none, some "+15551234"⟩⟩]⟩ "+15551234"
        (by decide) rfl rfl rfl rfl rfl (by decide) (by decide) (by decide)).1⟩

end AuthgearFirebase
